import Mathlib

/-!
# Verification of the ipfspodcasting updater work cycle

A shallow embedding of `cmd/updater/main.go` (the current, metrics-enabled
version of the file; the older variant of the polling loop is embedded
alongside it where a claim refers to it). External effects — the Kubo RPC
node, the HTTP download, and the coordinator endpoints — are supplied as
oracle values in environment records: each field models the value the
corresponding call returns to the updater. Go panics that the updater
itself can trigger (out-of-range indexing and slicing) are modelled as an
explicit `panic` outcome.
-/

namespace IPFSPodcasting

/-! ## String helpers mirroring the Go standard library -/

/-- Character-list version of a starts-with test, used to model
`strings.Contains` and the path check in `downloadOrPinFile`. -/
def startsWithChars : List Char → List Char → Bool
  | [], _ => true
  | _ :: _, [] => false
  | p :: ps, c :: cs => p == c && startsWithChars ps cs

/-- Whether `pat` occurs as a contiguous run inside `s`, as a char list. -/
def containsChars (pat : List Char) : List Char → Bool
  | [] => pat.isEmpty
  | c :: rest => startsWithChars pat (c :: rest) || containsChars pat rest

/-- Model of Go `strings.Contains(s, pat)`. -/
def strContains (s pat : String) : Bool :=
  containsChars pat.toList s.toList

/-- Model of the Go starts-with test on strings (the path check in the
fallback resolver). -/
def strStartsWith (s p : String) : Bool :=
  startsWithChars p.toList s.toList

/-! ## Data model (structs of `main.go`) -/

/-- One entry of `lsResponse.Objects[].Links`. -/
structure LsLink where
  name : String
  hash : String
  size : Int
  type : Int
  target : String
  deriving Repr, DecidableEq

/-- One entry of `lsResponse.Objects`. -/
structure LsObject where
  hash : String
  links : List LsLink
  deriving Repr, DecidableEq

/-- `PinFileResponse` of `main.go`. -/
structure PinFileResponse where
  pinned : String
  length : Int
  deriving Repr, DecidableEq

/-- `downloadFileResponse` of `main.go`. -/
structure DownloadFileResponse where
  downloadedFile : String
  length : Int
  deriving Repr, DecidableEq

/-- `addResponse` of `main.go`: one decoded JSON record of the `add` call. -/
structure AddResponse where
  name : String
  hash : String
  size : Int
  deriving Repr, DecidableEq

/-- `Work` of `main.go`: the inbound job description. `show` is a Lean
keyword, hence the primed field name. -/
structure Work where
  show' : String
  episode : String
  download : String
  pin : String
  filename : String
  delete : String
  message : String
  deriving Repr, DecidableEq

/-- `WorkResponse` of `main.go`: the outbound status/report payload.
Pointer-valued optional fields become `Option`. -/
structure WorkResponse where
  email : String
  version : String
  ipfsID : String
  ipfsVersion : String
  online : Bool
  peers : Int
  downloaded : Option String := none
  length : Option Int := none
  error : Option Int := none
  pinned : Option String := none
  deleted : Option String := none
  used : Option Int := none
  avail : Option Int := none
  deriving Repr, DecidableEq

/-- The `errInt = 1` constant stored into `WorkResponse.Error`. -/
def errFlag : Int := 1

/-! ## Pin operations -/

/-- The substring `pinDelete` treats as a benign `pin/rm` failure. -/
def notPinnedMsg : String := "not pinned or pinned indirectly"

/-- `pinAdd`: the RPC error (if any) is wrapped; `none` means success. -/
def pinAdd (rpcErr : Option String) : Option String :=
  match rpcErr with
  | none => none
  | some e => some ("request failed: " ++ e)

/-- `pinDelete`: a `pin/rm` error whose text contains `notPinnedMsg` is
swallowed (treated as success); any other error is wrapped and returned. -/
def pinDelete (rpcErr : Option String) : Option String :=
  match rpcErr with
  | none => none
  | some e =>
      if strContains e notPinnedMsg then none
      else some ("request failed: " ++ e)

/-- Outcome of `pinFile` (and of other storage helpers): a normal error
return, a successful value, or a Go runtime panic from out-of-range
indexing. -/
inductive PinOutcome where
  | panic
  | err (msg : String)
  | ok (resp : PinFileResponse)
  deriving Repr, DecidableEq

/-- `pinFile` of `main.go`, given the `pin/add` RPC error (if any) and the
decoded `ls` result. The guard is the one in the source:
`len(Objects) != 1 && len(Objects[0].Links) != 1`. With an empty object
list the second operand of `&&` indexes `Objects[0]` and panics; when the
guard passes, `Objects[0].Links[0]` panics on an empty link list. -/
def pinFile (pinAddErr : Option String) (lsRes : Except String (List LsObject))
    (hash : String) : PinOutcome :=
  match pinAdd pinAddErr with
  | some e => .err ("pin add failed: " ++ e)
  | none =>
    match lsRes with
    | .error e => .err ("ls failed: " ++ e)
    | .ok [] => .panic
    | .ok (o :: rest) =>
        if (o :: rest : List LsObject).length ≠ 1 ∧ o.links.length ≠ 1 then
          .err "ls objects or links is not 1"
        else
          match o.links with
          | [] => .panic
          | l :: _ => .ok ⟨l.hash ++ "/" ++ hash, l.size⟩

/-! ## Download and the fallback resolver -/

/-- `fileSize` of `main.go` over a decoded `ls` result: the sum of all link
sizes over all objects. -/
def fileSize (objs : List LsObject) : Int :=
  (objs.map fun o => (o.links.map fun l => l.size).sum).sum

/-- Oracle record for one `downloadFile` invocation: the outcome of the
HTTP GET, the `add` RPC round trip, the three producer-side failure slots,
the two decoded `add` records, and the `ls` call backing `fileSize`. -/
structure DownloadEnv where
  getErr : Option String
  statusCode : Int
  addSendErr : Option String
  addRespErr : Option String
  mpwCreateFormFileErr : Option String
  copyErr : Option String
  mpwCloseErr : Option String
  decode0 : Except String AddResponse
  decode1 : Except String AddResponse
  lsRes : Except String (List LsObject)

/-- `downloadFile` of `main.go`: fetch, stream into `add` (three
producer-side error slots checked after the round trip), decode exactly two
records, resolve the size of the first record via `ls`, and return
`added[0].Hash + "/" + added[1].Hash`. -/
def downloadFile (env : DownloadEnv) : Except String DownloadFileResponse :=
  match env.getErr with
  | some e => .error ("download failed: " ++ e)
  | none =>
    if env.statusCode ≠ 200 then
      .error "download file not OK"
    else
      match env.addSendErr with
      | some e => .error ("request failed: " ++ e)
      | none =>
        match env.addRespErr with
        | some e => .error ("response failed: " ++ e)
        | none =>
          match env.mpwCreateFormFileErr with
          | some e => .error ("creating form file failed: " ++ e)
          | none =>
            match env.copyErr with
            | some e => .error ("copy download failed: " ++ e)
            | none =>
              match env.mpwCloseErr with
              | some e => .error ("closing multipart writer failed: " ++ e)
              | none =>
                match env.decode0 with
                | .error e => .error ("json decode failed: " ++ e)
                | .ok a0 =>
                  match env.decode1 with
                  | .error e => .error ("json decode failed: " ++ e)
                  | .ok a1 =>
                    match env.lsRes with
                    | .error e => .error ("getting file size failed: " ++ e)
                    | .ok objs =>
                        .ok ⟨a0.hash ++ "/" ++ a1.hash, fileSize objs⟩

/-- The content-path marker checked by the fallback resolver. -/
def ipfsPathStart : String := "/ipfs/"

/-- The Go slice `url.Path[6:52]` used to cut the 46-character content
address out of the path: `none` models the runtime panic raised when the
path holds fewer than 52 bytes. -/
def sliceCid (path : String) : Option String :=
  let cs := path.toList
  if cs.length < 52 then none
  else some (String.mk ((cs.drop 6).take 46))

/-- Outcome of `downloadOrPinFile`: error return, success, or panic. -/
inductive FetchOutcome where
  | panic
  | err (msg : String)
  | ok (resp : DownloadFileResponse)
  deriving Repr, DecidableEq

/-- Coercion of a `downloadFile` result into a `FetchOutcome`. -/
def fetchOutcome : Except String DownloadFileResponse → FetchOutcome
  | .ok r => .ok r
  | .error e => .err e

/-- Oracle record for one `downloadOrPinFile` invocation. `parsedPath` is
the path component of `url.Parse` (`none` models a parse error);
`cidDecode` models `cid.Decode` followed by `.String()` (`none` models a
decode error); the pin fields feed the inner `pinFile` call; the second
fetch uses its own oracle. -/
structure FallbackEnv where
  firstFetch : DownloadEnv
  parsedPath : Option String
  cidDecode : String → Option String
  pinAddErr : Option String
  lsResPin : Except String (List LsObject)
  secondFetch : DownloadEnv

/-- `downloadOrPinFile` of `main.go`. The second component records whether
the pin path was attempted. A short content path reaches the unchecked
slice `url.Path[6:52]` and panics; a failed decode of the sliced segment
falls back to a plain second fetch without pinning. -/
def downloadOrPinFile (env : FallbackEnv) : FetchOutcome × Bool :=
  match downloadFile env.firstFetch with
  | .ok r => (.ok r, false)
  | .error _ =>
    match env.parsedPath with
    | none => (fetchOutcome (downloadFile env.secondFetch), false)
    | some path =>
      if strStartsWith path ipfsPathStart then
        match sliceCid path with
        | none => (.panic, false)
        | some cidStr =>
          match env.cidDecode cidStr with
          | none => (fetchOutcome (downloadFile env.secondFetch), false)
          | some c =>
            match pinFile env.pinAddErr env.lsResPin c with
            | .panic => (.panic, true)
            | .err _ => (fetchOutcome (downloadFile env.secondFetch), true)
            | .ok p => (.ok ⟨p.pinned, p.length⟩, true)
      else (fetchOutcome (downloadFile env.secondFetch), false)

/-! ## Coordinator protocol codec -/

/-- The substring the retry policy matches on: Go
`strings.Contains(err.Error(), "EOF")`. -/
def eofMarker : String := "EOF"

/-- One POST attempt of `requestWork`: a transport error, a JSON decode
error on the response body, or a decoded job. -/
inductive PostAttempt where
  | postErr (e : String)
  | decodeErr (e : String)
  | ok (w : Work)
  deriving Repr, DecidableEq

/-- The `requestWork` loop of `main.go` over the stream of attempt
outcomes the network would produce. Returns the final result (`none` if
the oracle stream ran out while the loop would continue) and the number of
POSTs issued. `retries` starts at 5 and only transport errors whose text
contains `eofMarker` consume a retry; any other transport error, a decode
error, or a decoded body ends the loop at once. -/
def requestWorkLoop : Nat → List PostAttempt → Option (Except String Work) × Nat
  | _, [] => (none, 0)
  | retries, a :: rest =>
    match a with
    | .ok w => (some (.ok w), 1)
    | .decodeErr e => (some (.error ("decoding work failed: " ++ e)), 1)
    | .postErr e =>
        if retries > 0 ∧ strContains e eofMarker = true then
          let r := requestWorkLoop (retries - 1) rest
          (r.1, r.2 + 1)
        else (some (.error ("fetching work failed: " ++ e)), 1)

/-- `requestWork` invokes the loop with the hardcoded retry budget 5. -/
def requestWork (attempts : List PostAttempt) : Option (Except String Work) × Nat :=
  requestWorkLoop 5 attempts

/-- The `responseWork` loop of `main.go`: same transport policy, but the
response body is discarded, so one attempt is a transport error or not. -/
def responseWorkLoop : Nat → List (Option String) → Option (Option String) × Nat
  | _, [] => (none, 0)
  | retries, a :: rest =>
    match a with
    | none => (some none, 1)
    | some e =>
        if retries > 0 ∧ strContains e eofMarker = true then
          let r := responseWorkLoop (retries - 1) rest
          (r.1, r.2 + 1)
        else (some (some ("fetching work failed: " ++ e)), 1)

/-- `responseWork` invokes the loop with the hardcoded retry budget 5. -/
def responseWork (attempts : List (Option String)) : Option (Option String) × Nat :=
  responseWorkLoop 5 attempts

/-! ## Work-cycle orchestrator -/

/-- Oracle record for `getKuboStats`: the three node-status calls. The
diag pair is `(ipfs_version, net.online)`. -/
structure KuboEnv where
  nodeIdRes : Except String String
  diagSysRes : Except String (String × Bool)
  peersRes : Except String Int

/-- `getKuboStats` of `main.go`: fill identity, software version, online
flag and peer count into the payload; the first failure aborts. -/
def getKuboStats (env : KuboEnv) (wr : WorkResponse) : Except String WorkResponse :=
  match env.nodeIdRes with
  | .error e => .error ("getting node id failed: " ++ e)
  | .ok nid =>
    match env.diagSysRes with
    | .error e => .error ("getting diag/sys failed: " ++ e)
    | .ok sys =>
      match env.peersRes with
      | .error e => .error ("fetching peers failed: " ++ e)
      | .ok p =>
          .ok { wr with ipfsID := nid, ipfsVersion := sys.1,
                        online := sys.2, peers := p }

/-- Oracle record for one `doWork` cycle. The directive fields hold the
full outcome of the respective helper — `downloadRes` a `FetchOutcome` of
`downloadOrPinFile` and `pinRes` a `PinOutcome` of `pinFile`, so each can
be a value, an error, or a Go panic; `deleteRmErr` is the raw `pin/rm` RPC
error fed to `pinDelete` (which only returns, never panics);
`repoStatsRes` is `(RepoSize, StorageMax)`; `reportErr` is the net outcome
of `responseWork`. -/
structure WorkEnv where
  kubo : KuboEnv
  requestRes : Except String Work
  downloadRes : FetchOutcome
  pinRes : PinOutcome
  deleteRmErr : Option String
  repoStatsRes : Except String (Int × Int)
  reportErr : Option String

/-- Externally visible actions of one cycle, in order of occurrence. -/
inductive Event where
  | reqWork
  | execDownload
  | execPin
  | execDelete
  | repoStat
  | report
  deriving Repr, DecidableEq

/-- How one `doWork` run went. When `panicked = false`, `complete` and
`errMsg` are the pair the Go function returns and `finalWr` its payload at
return. When `panicked = true` the Go function never returns — a directive
helper panicked, crashing the process mid-dispatch; `trace` then records
only the actions performed up to and including the panicking one, and
`complete`/`errMsg`/`finalWr` hold the placeholders `false`/`none`/the
payload at the crash. -/
structure CycleResult where
  complete : Bool
  errMsg : Option String
  finalWr : WorkResponse
  trace : List Event
  panicked : Bool
  deriving Repr, DecidableEq

/-- The delete branch body of `doWork`: `pinDelete` swallowing the benign
`pin/rm` error decides between recording the deletion and flagging. -/
def applyDelete (deleteRef : String) (rmErr : Option String)
    (wr : WorkResponse) : WorkResponse :=
  match pinDelete rmErr with
  | none => { wr with deleted := some deleteRef }
  | some _ => { wr with error := some errFlag }

/-- The repo-stat step of `doWork`: usage attached on success, silently
omitted on failure. -/
def applyRepoStats (res : Except String (Int × Int)) (wr : WorkResponse) : WorkResponse :=
  match res with
  | .ok s => { wr with avail := some s.2, used := some s.1 }
  | .error _ => wr

/-- A cycle cut short by a Go panic: the actions after the panicking one —
later directives, the repo-stat query and the report — never happen. -/
def panicResult (wr : WorkResponse) (t : List Event) : CycleResult :=
  { complete := false, errMsg := none, finalWr := wr, trace := t,
    panicked := true }

/-- The tail of `doWork` after the directives: query repo stats, attach
usage on success, always attempt the report, and compute the returned
pair — `true` exactly when the report went out and the error flag is
unset. -/
def doWorkReport (env : WorkEnv) (wr : WorkResponse) (t : List Event) : CycleResult :=
  let wr5 := applyRepoStats env.repoStatsRes wr
  let t5 := t ++ [Event.repoStat, Event.report]
  match env.reportErr with
  | some e =>
      { complete := false, errMsg := some ("post stats failed: " ++ e),
        finalWr := wr5, trace := t5, panicked := false }
  | none =>
      if wr5.error ≠ none then
        { complete := false, errMsg := none, finalWr := wr5, trace := t5,
          panicked := false }
      else
        { complete := true, errMsg := none, finalWr := wr5, trace := t5,
          panicked := false }

/-- The delete stage of `doWork` (guard `Delete != ""`): `pinDelete` only
returns, so this stage always reaches the report. -/
def doWorkDelete (env : WorkEnv) (work : Work) (wr : WorkResponse)
    (t : List Event) : CycleResult :=
  if work.delete ≠ "" then
    match pinDelete env.deleteRmErr with
    | none => doWorkReport env { wr with deleted := some work.delete }
        (t ++ [Event.execDelete])
    | some _ => doWorkReport env { wr with error := some errFlag }
        (t ++ [Event.execDelete])
  else doWorkReport env wr t

/-- The pin stage of `doWork` (guard `Pin != ""`): a `pinFile` panic
aborts the cycle here, skipping the delete stage and the report; an error
return sets the error flag and the cycle continues. -/
def doWorkPin (env : WorkEnv) (work : Work) (wr : WorkResponse)
    (t : List Event) : CycleResult :=
  if work.pin ≠ "" then
    match env.pinRes with
    | .panic => panicResult wr (t ++ [Event.execPin])
    | .err _ => doWorkDelete env work { wr with error := some errFlag }
        (t ++ [Event.execPin])
    | .ok p => doWorkDelete env work
        { wr with pinned := some p.pinned, length := some p.length }
        (t ++ [Event.execPin])
  else doWorkDelete env work wr t

/-- `doWork` of `main.go` (current version): gather node status — any
failure aborts before the coordinator is contacted; request work; end idle
on the no-work marker; otherwise run the directive stages in source order
(download guard `Download != "" && Filename != ""`), where a helper that
returns an error sets the error flag and the cycle continues, while a
helper that panics crashes the cycle on the spot. -/
def doWork (env : WorkEnv) (wr0 : WorkResponse) : CycleResult :=
  match getKuboStats env.kubo wr0 with
  | .error e =>
      { complete := false, errMsg := some ("get kubo stats failed: " ++ e),
        finalWr := wr0, trace := [], panicked := false }
  | .ok wr1 =>
    match env.requestRes with
    | .error e =>
        { complete := false, errMsg := some ("requesting work failed: " ++ e),
          finalWr := wr1, trace := [Event.reqWork], panicked := false }
    | .ok work =>
      if work.message = "No Work" then
        { complete := false, errMsg := none, finalWr := wr1,
          trace := [Event.reqWork], panicked := false }
      else
        if work.download ≠ "" ∧ work.filename ≠ "" then
          match env.downloadRes with
          | .panic => panicResult wr1 [Event.reqWork, Event.execDownload]
          | .err _ => doWorkPin env work { wr1 with error := some errFlag }
              [Event.reqWork, Event.execDownload]
          | .ok d => doWorkPin env work
              { wr1 with downloaded := some d.downloadedFile, length := some d.length }
              [Event.reqWork, Event.execDownload]
        else doWorkPin env work wr1 [Event.reqWork]

/-! ## The polling loop's sleep policy -/

/-- What the loop sleeps between cycles: the short fixed 5-second pause or
until the fixed update interval has elapsed since cycle start. -/
inductive SleepPolicy where
  | fixedShort
  | untilNextUpdate
  deriving Repr, DecidableEq

/-- The sleep the current `main` loop picks after a cycle: it always
sleeps `time.Until(nextUpdate)`, whatever `doWork` returned. -/
def mainSleep (_complete : Bool) : SleepPolicy :=
  SleepPolicy.untilNextUpdate

/-- The sleep the older variant of the `main` loop picks: a completed
cycle is followed by `time.Sleep(5 * time.Second)` and an immediate new
poll; otherwise it sleeps until the update interval has elapsed. -/
def mainSleepV1 (completed : Bool) : SleepPolicy :=
  if completed then SleepPolicy.fixedShort else SleepPolicy.untilNextUpdate

/-! ## Sample values for concrete evaluation -/

/-- The fresh payload `main` builds once and hands to every cycle. -/
def wrInit : WorkResponse :=
  { email := "user@example.com", version := "0.6g", ipfsID := "",
    ipfsVersion := "", online := false, peers := 0 }

/-- A node that answers all three status calls. -/
def kuboOK : KuboEnv :=
  { nodeIdRes := .ok "12D3KooWNode", diagSysRes := .ok ("0.23.0", true),
    peersRes := .ok 42 }

/-- `wrInit` after `getKuboStats` against `kuboOK`. -/
def wrStats : WorkResponse :=
  { wrInit with ipfsID := "12D3KooWNode", ipfsVersion := "0.23.0",
                online := true, peers := 42 }

/-- A job carrying all three directives. -/
def workAll : Work :=
  { show' := "show", episode := "42", download := "https://example.com/ep.mp3",
    pin := "QmPin", filename := "ep.mp3", delete := "QmDel", message := "" }

/-- A cycle in which everything succeeds. -/
def envAll : WorkEnv :=
  { kubo := kuboOK, requestRes := .ok workAll,
    downloadRes := FetchOutcome.ok ⟨"QmFile/QmDir", 123⟩,
    pinRes := PinOutcome.ok ⟨"QmLink/QmPin", 777⟩,
    deleteRmErr := none, repoStatsRes := .ok (10, 100), reportErr := none }

/-! ## Helper lemmas -/

/-- `getKuboStats` only writes the four status fields: the outcome fields
of the payload pass through unchanged. -/
theorem getKuboStats_preserves (env : KuboEnv) (wr wr' : WorkResponse)
    (h : getKuboStats env wr = .ok wr') :
    wr'.error = wr.error ∧ wr'.deleted = wr.deleted ∧
      wr'.downloaded = wr.downloaded ∧ wr'.pinned = wr.pinned ∧
      wr'.length = wr.length := by
  unfold getKuboStats at h
  rcases hn : env.nodeIdRes with e | nid <;> rw [hn] at h
  · exact absurd h (by simp)
  rcases hd : env.diagSysRes with e | sys <;> rw [hd] at h
  · exact absurd h (by simp)
  rcases hp : env.peersRes with e | p <;> rw [hp] at h
  · exact absurd h (by simp)
  cases h
  simp

/-- `doWork` reduced to its dispatch tail once node status is gathered,
the request succeeded and the job is not the no-work marker. -/
theorem doWork_eq_dispatch (env : WorkEnv) (wr0 wr1 : WorkResponse) (work : Work)
    (hk : getKuboStats env.kubo wr0 = .ok wr1)
    (hr : env.requestRes = .ok work)
    (hm : work.message ≠ "No Work") :
    doWork env wr0
      = if work.download ≠ "" ∧ work.filename ≠ "" then
          match env.downloadRes with
          | .panic => panicResult wr1 [Event.reqWork, Event.execDownload]
          | .err _ => doWorkPin env work { wr1 with error := some errFlag }
              [Event.reqWork, Event.execDownload]
          | .ok d => doWorkPin env work
              { wr1 with downloaded := some d.downloadedFile, length := some d.length }
              [Event.reqWork, Event.execDownload]
        else doWorkPin env work wr1 [Event.reqWork] := by
  unfold doWork
  rw [hk, hr]
  simp [hm]

/-- The report stage: its trace appends exactly the repo-stat and report
actions, it never panics, its payload is the repo-stat update, and it
completes exactly on a clean report with an unset error flag. -/
theorem doWorkReport_spec (env : WorkEnv) (wr : WorkResponse) (t : List Event) :
    (doWorkReport env wr t).trace = t ++ [Event.repoStat, Event.report] ∧
      (doWorkReport env wr t).panicked = false ∧
      (doWorkReport env wr t).finalWr = applyRepoStats env.repoStatsRes wr ∧
      ((doWorkReport env wr t).complete = true ↔
        (env.reportErr = none ∧ (applyRepoStats env.repoStatsRes wr).error = none)) := by
  unfold doWorkReport
  cases hrep : env.reportErr with
  | some e => simp
  | none =>
      by_cases herr : (applyRepoStats env.repoStatsRes wr).error = none
      · simp [herr]
      · simp [herr]

/-- The delete stage is the report stage applied to the delete branch
body and the delete action when the guard holds. -/
theorem doWorkDelete_eq (env : WorkEnv) (work : Work) (wr : WorkResponse)
    (t : List Event) :
    doWorkDelete env work wr t
      = doWorkReport env
          (if work.delete ≠ "" then applyDelete work.delete env.deleteRmErr wr else wr)
          (t ++ (if work.delete ≠ "" then [Event.execDelete] else [])) := by
  unfold doWorkDelete applyDelete
  by_cases hd : work.delete ≠ "" <;>
    cases hpd : pinDelete env.deleteRmErr <;> simp [hd, hpd]

/-- `applyRepoStats` never touches the outcome fields. -/
theorem applyRepoStats_preserves (res : Except String (Int × Int)) (wr : WorkResponse) :
    (applyRepoStats res wr).error = wr.error ∧
      (applyRepoStats res wr).deleted = wr.deleted ∧
      (applyRepoStats res wr).downloaded = wr.downloaded ∧
      (applyRepoStats res wr).pinned = wr.pinned ∧
      (applyRepoStats res wr).length = wr.length := by
  cases res <;> simp [applyRepoStats]

/-- The delete branch body never touches the download and pin fields. -/
theorem applyDelete_preserves (ref : String) (rmErr : Option String)
    (wr : WorkResponse) :
    (applyDelete ref rmErr wr).downloaded = wr.downloaded ∧
      (applyDelete ref rmErr wr).pinned = wr.pinned ∧
      (applyDelete ref rmErr wr).length = wr.length := by
  unfold applyDelete
  cases pinDelete rmErr <;> simp

/-- Completion of the delete stage: it always reaches the report, so it
completes exactly on a clean report with an unset final error flag. -/
theorem doWorkDelete_complete_iff (env : WorkEnv) (work : Work)
    (wr : WorkResponse) (t : List Event) :
    (doWorkDelete env work wr t).complete = true ↔
      (Event.report ∈ (doWorkDelete env work wr t).trace ∧ env.reportErr = none ∧
        (doWorkDelete env work wr t).finalWr.error = none) := by
  rw [doWorkDelete_eq]
  obtain ⟨ht, -, hw, hc⟩ := doWorkReport_spec env
    (if work.delete ≠ "" then applyDelete work.delete env.deleteRmErr wr else wr)
    (t ++ (if work.delete ≠ "" then [Event.execDelete] else []))
  rw [ht, hw, hc]
  simp

/-- Completion of the pin stage: a pin panic yields an incomplete run with
no report action, and otherwise the delete-stage characterization holds. -/
theorem doWorkPin_complete_iff (env : WorkEnv) (work : Work)
    (wr : WorkResponse) (t : List Event) (hrep : Event.report ∉ t) :
    (doWorkPin env work wr t).complete = true ↔
      (Event.report ∈ (doWorkPin env work wr t).trace ∧ env.reportErr = none ∧
        (doWorkPin env work wr t).finalWr.error = none) := by
  unfold doWorkPin
  by_cases hp : work.pin ≠ ""
  · rw [if_pos hp]
    rcases env.pinRes with _ | e | p
    · simp [panicResult, List.mem_append, hrep]
    · exact doWorkDelete_complete_iff env work _ _
    · exact doWorkDelete_complete_iff env work _ _
  · rw [if_neg hp]
    exact doWorkDelete_complete_iff env work _ _

/-! ## Claim theorems -/

/-- C5: a cycle in which gathering node status fails aborts immediately:
`doWork` returns incomplete with an error and its trace is empty — in
particular the coordinator is neither asked for work nor sent a report. -/
theorem doWork_aborts_on_stats_failure (env : WorkEnv) (wr0 : WorkResponse)
    (e : String) (h : getKuboStats env.kubo wr0 = .error e) :
    (doWork env wr0).complete = false ∧
      (doWork env wr0).errMsg.isSome = true ∧
      (doWork env wr0).trace = [] ∧
      Event.reqWork ∉ (doWork env wr0).trace ∧
      Event.report ∉ (doWork env wr0).trace := by
  unfold doWork
  rw [h]
  simp

/-- A node whose identity call fails. -/
def envStatsFail : WorkEnv :=
  { envAll with kubo := { kuboOK with nodeIdRes := .error "connection refused" } }

theorem doWork_aborts_on_stats_failure_witness :
    (doWork envStatsFail wrInit).complete = false ∧
      (doWork envStatsFail wrInit).errMsg.isSome = true ∧
      (doWork envStatsFail wrInit).trace = [] ∧
      Event.reqWork ∉ (doWork envStatsFail wrInit).trace ∧
      Event.report ∉ (doWork envStatsFail wrInit).trace :=
  doWork_aborts_on_stats_failure envStatsFail wrInit
    "getting node id failed: connection refused" rfl

/-- C9: starting from a fresh payload with an unset error flag, a cycle is
complete exactly when the report was sent (the report action happened and
its transport succeeded) and the error flag is still unset at the end; in
every other case — status failure, request failure, idle, report failure,
or a flagged directive — the cycle is incomplete. -/
theorem doWork_complete_iff (env : WorkEnv) (wr0 : WorkResponse)
    (_h0 : wr0.error = none) :
    (doWork env wr0).complete = true ↔
      (Event.report ∈ (doWork env wr0).trace ∧ env.reportErr = none ∧
        (doWork env wr0).finalWr.error = none) := by
  rcases hk : getKuboStats env.kubo wr0 with e | wr1
  · unfold doWork; rw [hk]; simp
  rcases hr : env.requestRes with e | work
  · unfold doWork; rw [hk, hr]; simp
  by_cases hm : work.message = "No Work"
  · unfold doWork; rw [hk, hr]; simp [hm]
  rw [doWork_eq_dispatch env wr0 wr1 work hk hr hm]
  by_cases hdg : work.download ≠ "" ∧ work.filename ≠ ""
  · rw [if_pos hdg]
    rcases env.downloadRes with _ | e | d
    · simp [panicResult]
    · exact doWorkPin_complete_iff env work _ _ (by decide)
    · exact doWorkPin_complete_iff env work _ _ (by decide)
  · rw [if_neg hdg]
    exact doWorkPin_complete_iff env work _ _ (by decide)

theorem doWork_complete_iff_witness :
    (doWork envAll wrInit).complete = true ↔
      (Event.report ∈ (doWork envAll wrInit).trace ∧ envAll.reportErr = none ∧
        (doWork envAll wrInit).finalWr.error = none) :=
  doWork_complete_iff envAll wrInit rfl

/-- C10: the payload has a single shared length field; when a cycle's job
carries both a download and a pin directive and both succeed, the pin's
length overwrites the download's, so the report pairs the downloaded
reference with the pin's byte length. -/
theorem doWork_pin_length_overwrites (env : WorkEnv) (wr0 wr1 : WorkResponse)
    (work : Work) (d : DownloadFileResponse) (p : PinFileResponse)
    (hk : getKuboStats env.kubo wr0 = .ok wr1)
    (hr : env.requestRes = .ok work) (hm : work.message ≠ "No Work")
    (hd : work.download ≠ "") (hf : work.filename ≠ "") (hp : work.pin ≠ "")
    (hdr : env.downloadRes = .ok d) (hpr : env.pinRes = .ok p) :
    (doWork env wr0).finalWr.length = some p.length ∧
      (doWork env wr0).finalWr.downloaded = some d.downloadedFile ∧
      (doWork env wr0).finalWr.pinned = some p.pinned := by
  rw [doWork_eq_dispatch env wr0 wr1 work hk hr hm]
  rw [if_pos (And.intro hd hf)]
  simp only [hdr]
  unfold doWorkPin
  rw [if_pos hp]
  simp only [hpr]
  rw [doWorkDelete_eq]
  rw [(doWorkReport_spec env _ _).2.2.1]
  by_cases hdw : work.delete ≠ ""
  · rw [if_pos hdw]
    cases hpd : pinDelete env.deleteRmErr <;>
      cases hrs : env.repoStatsRes <;>
        simp [applyDelete, applyRepoStats, hpd, hrs]
  · rw [if_neg hdw]
    cases hrs : env.repoStatsRes <;> simp [applyRepoStats, hrs]

theorem doWork_pin_length_overwrites_witness :
    (doWork envAll wrInit).finalWr.length = some (777 : Int) ∧
      (doWork envAll wrInit).finalWr.downloaded = some "QmFile/QmDir" ∧
      (doWork envAll wrInit).finalWr.pinned = some "QmLink/QmPin" :=
  doWork_pin_length_overwrites envAll wrInit wrStats workAll
    ⟨"QmFile/QmDir", 123⟩ ⟨"QmLink/QmPin", 777⟩
    rfl rfl (by decide) (by decide) (by decide) (by decide) rfl rfl

/-- C6: a delete directive whose `pin/rm` call the node rejects with an
error saying the reference is not pinned or only pinned indirectly is
treated as success — the deleted field is set to the reference and the
error flag stays unset (likewise on a clean `pin/rm`); any other `pin/rm`
error sets the error flag and leaves the deleted field unset. Stated on a
cycle whose job carries only the delete directive, over a fresh payload. -/
theorem doWork_delete_benign_rm_error (env : WorkEnv) (wr0 wr1 : WorkResponse)
    (work : Work)
    (h0e : wr0.error = none) (h0d : wr0.deleted = none)
    (hk : getKuboStats env.kubo wr0 = .ok wr1)
    (hr : env.requestRes = .ok work) (hm : work.message ≠ "No Work")
    (hnd : ¬(work.download ≠ "" ∧ work.filename ≠ "")) (hnp : work.pin = "")
    (hdl : work.delete ≠ "") :
    (∀ e, env.deleteRmErr = some e → strContains e notPinnedMsg = true →
        (doWork env wr0).finalWr.deleted = some work.delete ∧
          (doWork env wr0).finalWr.error = none) ∧
      (env.deleteRmErr = none →
        (doWork env wr0).finalWr.deleted = some work.delete ∧
          (doWork env wr0).finalWr.error = none) ∧
      (∀ e, env.deleteRmErr = some e → strContains e notPinnedMsg = false →
        (doWork env wr0).finalWr.error = some errFlag ∧
          (doWork env wr0).finalWr.deleted = none) := by
  have hnp2 : ¬(work.pin ≠ "") := by simp [hnp]
  obtain ⟨he1, hd1, -, -, -⟩ := getKuboStats_preserves env.kubo wr0 wr1 hk
  have hdwr : doWork env wr0
      = doWorkReport env (applyDelete work.delete env.deleteRmErr wr1)
          ([Event.reqWork] ++ [Event.execDelete]) := by
    rw [doWork_eq_dispatch env wr0 wr1 work hk hr hm, if_neg hnd]
    unfold doWorkPin
    rw [if_neg hnp2]
    rw [doWorkDelete_eq]
    rw [if_pos hdl, if_pos hdl]
  have hfin : (doWork env wr0).finalWr
      = applyRepoStats env.repoStatsRes (applyDelete work.delete env.deleteRmErr wr1) := by
    rw [hdwr, (doWorkReport_spec env _ _).2.2.1]
  have hrs := applyRepoStats_preserves env.repoStatsRes
    (applyDelete work.delete env.deleteRmErr wr1)
  refine ⟨?_, ?_, ?_⟩
  · intro e hre hcont
    rw [hfin, hrs.2.1, hrs.1]
    simp [applyDelete, pinDelete, hre, hcont, he1, h0e]
  · intro hre
    rw [hfin, hrs.2.1, hrs.1]
    simp [applyDelete, pinDelete, hre, he1, h0e]
  · intro e hre hcont
    rw [hfin, hrs.1, hrs.2.1]
    simp [applyDelete, pinDelete, hre, hcont, hd1, h0d]

/-- A job carrying only the delete directive. -/
def workDel : Work :=
  { workAll with download := "", pin := "", filename := "" }

/-- A cycle whose `pin/rm` is rejected with the benign error text. -/
def envDelBenign : WorkEnv :=
  { envAll with requestRes := .ok workDel,
                deleteRmErr := some "QmDel is not pinned or pinned indirectly" }

theorem doWork_delete_benign_rm_error_witness :
    (doWork envDelBenign wrInit).finalWr.deleted = some workDel.delete ∧
      (doWork envDelBenign wrInit).finalWr.error = none :=
  (doWork_delete_benign_rm_error envDelBenign wrInit wrStats workDel
      rfl rfl rfl rfl (by decide) (by decide) rfl (by decide)).1
    "QmDel is not pinned or pinned indirectly" rfl (by decide)

/-- C2 (code bug): the guard of `pinFile` joins its two shape checks with a
conjunction although its own error text reads "ls objects or links is not
1": an ls result with exactly one object carrying two links is accepted and
the first link is recorded as pinned instead of failing; an ls result with
no objects at all makes the guard index an empty list and panic. Only when
both counts are wrong does the guarded error fire. -/
theorem pinFile_accepts_malformed_ls :
    pinFile none
        (.ok [⟨"QmDir", [⟨"ep.mp3", "QmLinkOne", 7, 2, ""⟩,
                          ⟨"extra", "QmLinkTwo", 9, 2, ""⟩]⟩]) "QmPin"
      = .ok ⟨"QmLinkOne/QmPin", 7⟩ ∧
      pinFile none (.ok []) "QmPin" = .panic ∧
      pinFile none (.ok [⟨"QmDirA", []⟩, ⟨"QmDirB", []⟩]) "QmPin"
        = .err "ls objects or links is not 1" :=
  ⟨rfl, rfl, rfl⟩

/-- A failing HTTP GET with the rest of the oracle inert. -/
def fetchRefused : DownloadEnv :=
  { getErr := some "connection refused", statusCode := 0, addSendErr := none,
    addRespErr := none, mpwCreateFormFileErr := none, copyErr := none,
    mpwCloseErr := none, decode0 := .error "no body", decode1 := .error "no body",
    lsRes := .error "no ls" }

/-- Fallback environment for a download URL whose path is the short
content path `/ipfs/abc` (11 bytes, fewer than the 52 the slice needs). -/
def envShortIpfsPath : FallbackEnv :=
  { firstFetch := fetchRefused, parsedPath := some "/ipfs/abc",
    cidDecode := fun _ => none, pinAddErr := none, lsResPin := .error "no ls",
    secondFetch := fetchRefused }

/-- Fallback environment whose path is long enough but whose 46-character
segment does not decode as a content address. -/
def envBadCidPath : FallbackEnv :=
  { envShortIpfsPath with
      parsedPath := some "/ipfs/zzzzzzzzzzzzzzzzzzzzzzzzzzzzzzzzzzzzzzzzzzzzzz" }

/-- C3 (code bug): when the parsed path begins with the content-path marker
but holds fewer bytes than the fixed-width slice requires, the resolver
does not retry the plain fetch — the unchecked slice panics and the cycle
aborts abnormally; when the path is long enough but the sliced segment
fails to decode, it does retry the plain fetch once, without pinning, and
returns that outcome. -/
theorem downloadOrPinFile_short_path_panics :
    downloadOrPinFile envShortIpfsPath = (.panic, false) ∧
      downloadOrPinFile envBadCidPath
        = (.err "download failed: connection refused", false) :=
  ⟨rfl, rfl⟩

/-- A cycle whose job carries all three directives and whose download
directive panics: its `downloadOrPinFile` outcome is taken verbatim from
the short-content-path environment of the fallback resolver, where the
direct fetch fails and the unchecked slice panics. -/
def envPanicAll : WorkEnv :=
  { kubo := kuboOK, requestRes := .ok workAll,
    downloadRes := (downloadOrPinFile envShortIpfsPath).1,
    pinRes := PinOutcome.ok ⟨"QmLink/QmPin", 777⟩,
    deleteRmErr := none, repoStatsRes := .ok (10, 100), reportErr := none }

/-- C1 (code bug): the cycle does not always run every present directive
and then report. On a job carrying download, pin and delete directives
whose download panics — reachable, since a failing fetch on a short
`/ipfs/` path makes `downloadOrPinFile` panic — the cycle crashes
mid-dispatch: the trace stops at the download action, the pin and delete
directives never run although present, and no report is sent, so partial
success is discarded rather than reported. -/
theorem doWork_panic_discards_partial_success :
    (downloadOrPinFile envShortIpfsPath).1 = FetchOutcome.panic ∧
      workAll.pin ≠ "" ∧ workAll.delete ≠ "" ∧
      (doWork envPanicAll wrInit).panicked = true ∧
      (doWork envPanicAll wrInit).trace = [Event.reqWork, Event.execDownload] ∧
      Event.execPin ∉ (doWork envPanicAll wrInit).trace ∧
      Event.execDelete ∉ (doWork envPanicAll wrInit).trace ∧
      Event.report ∉ (doWork envPanicAll wrInit).trace :=
  ⟨rfl, by decide, by decide, rfl, rfl, by decide, by decide, by decide⟩

/-- C4: both coordinator calls share one retry policy: a transport error
whose text contains the marker consumes one of the 5 retries, and once the
budget is spent the next such error fails permanently — six POSTs in
total; a transport error without the marker fails at once after a single
POST with zero retries; up to 5 matching errors followed by a good
response still succeed. -/
theorem coordinator_retry_policy :
    (∀ e rest rest2, strContains e eofMarker = false →
        requestWork (PostAttempt.postErr e :: rest)
            = (some (.error ("fetching work failed: " ++ e)), 1) ∧
          responseWork (some e :: rest2)
            = (some (some ("fetching work failed: " ++ e)), 1)) ∧
      (∀ e, strContains e eofMarker = true →
        requestWork (List.replicate 6 (PostAttempt.postErr e))
            = (some (.error ("fetching work failed: " ++ e)), 6) ∧
          responseWork (List.replicate 6 (some e))
            = (some (some ("fetching work failed: " ++ e)), 6)) ∧
      (∀ e w k, k ≤ 5 → strContains e eofMarker = true →
        requestWork (List.replicate k (PostAttempt.postErr e) ++ [PostAttempt.ok w])
          = (some (.ok w), k + 1)) := by
  refine ⟨?_, ?_, ?_⟩
  · intro e rest rest2 h
    constructor <;>
      simp [requestWork, responseWork, requestWorkLoop, responseWorkLoop, h]
  · intro e h
    constructor <;>
      simp [requestWork, responseWork, requestWorkLoop, responseWorkLoop, h,
            List.replicate_succ]
  · intro e w k hk h
    interval_cases k <;>
      simp [requestWork, requestWorkLoop, h, List.replicate_succ]

theorem coordinator_retry_policy_witness :
    requestWork [PostAttempt.postErr "connection refused"]
        = (some (.error "fetching work failed: connection refused"), 1) ∧
      requestWork (List.replicate 6 (PostAttempt.postErr "unexpected EOF"))
        = (some (.error "fetching work failed: unexpected EOF"), 6) :=
  ⟨(coordinator_retry_policy.1 "connection refused" [] [] (by decide)).1,
    (coordinator_retry_policy.2.1 "unexpected EOF" (by decide)).1⟩

/-- A fully successful download: the add decodes to file record `A` then
wrapping-directory record `B`; `ls` on the file entry reports 1000 bytes. -/
def dlOK : DownloadEnv :=
  { getErr := none, statusCode := 200, addSendErr := none, addRespErr := none,
    mpwCreateFormFileErr := none, copyErr := none, mpwCloseErr := none,
    decode0 := .ok ⟨"ep.mp3", "A", 1000⟩,
    decode1 := .ok ⟨"", "B", 1020⟩,
    lsRes := .ok [⟨"A", [⟨"ep.mp3", "AF", 1000, 2, ""⟩]⟩] }

/-- C7 is false as stated: in the successful download `dlOK` the wrapping
directory is the second add record `B` and the entry name is `ep.mp3`, yet
the reported address is `A/B` — file-entry hash first, then directory
hash — not `B/ep.mp3`. On the pin side, pinning `QmPin` whose single link
is `⟨ep.mp3, F, 7⟩` reports `F/QmPin`, not `QmPin/ep.mp3`. -/
theorem address_format_counterexample :
    downloadFile dlOK = .ok ⟨"A/B", 1000⟩ ∧
      "A/B" ≠ "B" ++ "/" ++ "ep.mp3" ∧
      pinFile none (.ok [⟨"QmPin", [⟨"ep.mp3", "F", 7, 2, ""⟩]⟩]) "QmPin"
        = .ok ⟨"F/QmPin", 7⟩ ∧
      "F/QmPin" ≠ "QmPin" ++ "/" ++ "ep.mp3" :=
  ⟨rfl, by decide, rfl, by decide⟩

/-- C7 amended: both successful operations report a two-segment path whose
first segment is the file entry's hash: a download reports
`<first add record hash>/<second add record hash>` (file entry, then
wrapping directory) and a pin reports `<first link hash>/<pin reference>`. -/
theorem address_format_amended
    (env : DownloadEnv) (a0 a1 : AddResponse) (r : DownloadFileResponse)
    (pa : Option String) (o : LsObject) (rest : List LsObject)
    (l : LsLink) (ls2 : List LsLink) (hash : String) (p : PinFileResponse)
    (h0 : env.decode0 = .ok a0) (h1 : env.decode1 = .ok a1)
    (h : downloadFile env = .ok r)
    (hlk : o.links = l :: ls2)
    (hp : pinFile pa (.ok (o :: rest)) hash = PinOutcome.ok p) :
    r.downloadedFile = a0.hash ++ "/" ++ a1.hash ∧
      p.pinned = l.hash ++ "/" ++ hash ∧ p.length = l.size := by
  refine ⟨?_, ?_⟩
  · unfold downloadFile at h
    repeat' split at h
    all_goals simp_all
    subst h
    rfl
  · unfold pinFile at hp
    repeat' split at hp
    all_goals simp_all
    subst hp
    exact ⟨rfl, rfl⟩

theorem address_format_amended_witness :
    (⟨"A/B", 1000⟩ : DownloadFileResponse).downloadedFile = "A" ++ "/" ++ "B" ∧
      (⟨"F/QmPin", 7⟩ : PinFileResponse).pinned = "F" ++ "/" ++ "QmPin" ∧
      (⟨"F/QmPin", 7⟩ : PinFileResponse).length = 7 :=
  address_format_amended dlOK ⟨"ep.mp3", "A", 1000⟩ ⟨"", "B", 1020⟩
    ⟨"A/B", 1000⟩ none ⟨"QmPin", [⟨"ep.mp3", "F", 7, 2, ""⟩]⟩ []
    ⟨"ep.mp3", "F", 7, 2, ""⟩ [] "QmPin" ⟨"F/QmPin", 7⟩
    rfl rfl rfl rfl rfl

/-- A no-work response. -/
def workIdle : Work :=
  { show' := "", episode := "", download := "", pin := "", filename := "",
    delete := "", message := "No Work" }

/-- A cycle that receives the no-work marker. -/
def envIdle : WorkEnv := { envAll with requestRes := .ok workIdle }

/-- C8 is false as stated: an idle cycle returns incomplete, and after an
incomplete cycle both loop variants sleep until the update interval has
elapsed — the short fixed pause never follows an idle cycle (the current
loop never takes it at all; the older loop takes it after completed
cycles). -/
theorem idle_sleep_counterexample :
    (doWork envIdle wrInit).complete = false ∧
      mainSleep (doWork envIdle wrInit).complete = SleepPolicy.untilNextUpdate ∧
      mainSleepV1 (doWork envIdle wrInit).complete = SleepPolicy.untilNextUpdate ∧
      SleepPolicy.untilNextUpdate ≠ SleepPolicy.fixedShort :=
  ⟨rfl, rfl, rfl, by decide⟩

/-- C8 amended: the current loop sleeps until the fixed update interval
after every cycle, idle or not; the older loop variant slept the short
fixed pause exactly after cycles whose `doWork` returned complete and
until the update interval otherwise — in particular an idle cycle is
incomplete, so after it both variants sleep the full interval. -/
theorem sleep_policy_amended (b : Bool) (env : WorkEnv) (wr0 : WorkResponse)
    (work : Work) (wr1 : WorkResponse)
    (hk : getKuboStats env.kubo wr0 = .ok wr1)
    (hr : env.requestRes = .ok work) (hm : work.message = "No Work") :
    mainSleep b = SleepPolicy.untilNextUpdate ∧
      mainSleepV1 b
          = (if b then SleepPolicy.fixedShort else SleepPolicy.untilNextUpdate) ∧
      (doWork env wr0).complete = false ∧
      mainSleep (doWork env wr0).complete = SleepPolicy.untilNextUpdate ∧
      mainSleepV1 (doWork env wr0).complete = SleepPolicy.untilNextUpdate := by
  have hc : (doWork env wr0).complete = false := by
    unfold doWork
    rw [hk, hr]
    simp [hm]
  refine ⟨rfl, rfl, hc, rfl, ?_⟩
  rw [hc]
  rfl

theorem sleep_policy_amended_witness :
    mainSleep false = SleepPolicy.untilNextUpdate ∧
      mainSleepV1 false
          = (if false then SleepPolicy.fixedShort else SleepPolicy.untilNextUpdate) ∧
      (doWork envIdle wrInit).complete = false ∧
      mainSleep (doWork envIdle wrInit).complete = SleepPolicy.untilNextUpdate ∧
      mainSleepV1 (doWork envIdle wrInit).complete = SleepPolicy.untilNextUpdate :=
  sleep_policy_amended false envIdle wrInit workIdle wrStats rfl rfl rfl

end IPFSPodcasting
